import Mathlib

/-!
Verification of the settings/menu UI layer of AutoSplit-windtracker
(`src/menu_bar.py`), shallowly embedded in Lean 4.

The Qt widgets and the external collaborators (capture backends, dialog,
HTTP feed) are modelled by explicit state records; each Python handler
becomes a pure Lean function from its inputs (signal payload, current
control values, settings store) to the updated state, with `Option` marking
uncaught Python exceptions.
-/

namespace MenuBar

/-- One enumerated capture device, as returned by the external
`get_all_video_capture_devices` service (spec section 6: device id is an
integer, name a string, backend an optional string — the code treats the
empty string as "no backend" — and an occupied flag). -/
structure CameraInfo where
  device_id : Int
  name : String
  backend : String
  occupied : Bool
  deriving DecidableEq, Repr

/-- The externally defined set of capture methods.  Only
`VIDEO_CAPTURE_DEVICE` is distinguished in `menu_bar.py`; the other
constructors stand for the remaining entries of the external
`CaptureMethodEnum`. -/
inductive CaptureMethodEnum where
  | NONE_METHOD
  | BITBLT
  | WINDOWS_GRAPHICS_CAPTURE
  | DESKTOP_DUPLICATION
  | VIDEO_CAPTURE_DEVICE
  deriving DecidableEq, Repr

/-- A composite region record `{x, y, width, height}` as stored under
`windtracker_region_1` / `windtracker_region_2`. -/
structure Region where
  x : Int
  y : Int
  width : Int
  height : Int
  deriving DecidableEq, Repr

/-- The slice of `autosplit.settings_dict` that the claims touch.  The real
store is a string-keyed mapping; each field here is one fixed key. -/
structure Settings where
  capture_method : CaptureMethodEnum
  capture_device_id : Int
  capture_device_name : String
  fps_limit : Int
  screenshot_directory : String
  split_image_directory : String
  windtracker_speed_image_directory : String
  windtracker_direction_image_directory : String
  windtracker_region_1 : Region
  windtracker_region_2 : Region
  deriving DecidableEq, Repr

/-- Python's `list.index` on the mapped `device_id` list: the index of the
first element equal to `id`, `none` when absent (`ValueError`). -/
def index_of_device (devices : List CameraInfo) (id : Int) : Option Nat :=
  match devices with
  | [] => none
  | d :: rest =>
      if d.device_id = id then some 0
      else (index_of_device rest id).map (· + 1)

/-- `__SettingsWidget.get_capture_device_index`: position of the stored id
in the enumerated device list, 0 when the id is not found. -/
def get_capture_device_index (devices : List CameraInfo) (capture_device_id : Int) : Nat :=
  (index_of_device devices capture_device_id).getD 0

theorem index_of_device_none (devices : List CameraInfo) (id : Int)
    (h : index_of_device devices id = none) :
    ∀ d ∈ devices, d.device_id ≠ id := by
  induction devices with
  | nil => intro d hd; cases hd
  | cons a rest ih =>
      intro d hd
      by_cases ha : a.device_id = id
      · simp [index_of_device, ha] at h
      · rcases List.mem_cons.mp hd with hd | hd
        · simpa [hd] using ha
        · refine ih ?_ d hd
          simp only [index_of_device, ha, if_false] at h
          cases hrest : index_of_device rest id with
          | none => rfl
          | some k => simp [hrest] at h

theorem index_of_device_some (devices : List CameraInfo) (id : Int) (i : Nat)
    (h : index_of_device devices id = some i) :
    ∃ hi : i < devices.length,
      (devices.get ⟨i, hi⟩).device_id = id ∧
        ∀ j (hj : j < devices.length), j < i → (devices.get ⟨j, hj⟩).device_id ≠ id := by
  induction devices generalizing i with
  | nil => simp [index_of_device] at h
  | cons a rest ih =>
      by_cases ha : a.device_id = id
      · simp only [index_of_device, ha, if_true, Option.some.injEq] at h
        subst h
        exact ⟨by simp, ha, fun j hj hlt => absurd hlt (Nat.not_lt_zero j)⟩
      · simp only [index_of_device, ha, if_false, Option.map_eq_some'] at h
        obtain ⟨k, hk, hki⟩ := h
        obtain ⟨hklen, hkid, hkmin⟩ := ih k hk
        subst hki
        refine ⟨by simpa using Nat.succ_lt_succ hklen, by simpa using hkid, ?_⟩
        intro j hj hlt
        cases j with
        | zero => simpa using ha
        | succ m =>
            have hm : m < rest.length := by simpa using hj
            have := hkmin m hm (Nat.lt_of_succ_lt_succ hlt)
            simpa using this

/-- C1: `get_capture_device_index` returns the position of the (first)
entry of the enumerated list whose `device_id` equals the stored id when a
matching entry exists, and returns 0 when no entry matches. -/
theorem C1_get_capture_device_index_spec (devices : List CameraInfo) (id : Int) :
    ((∀ d ∈ devices, d.device_id ≠ id) → get_capture_device_index devices id = 0) ∧
    ((∃ d ∈ devices, d.device_id = id) →
      ∃ hlt : get_capture_device_index devices id < devices.length,
        (devices.get ⟨get_capture_device_index devices id, hlt⟩).device_id = id ∧
          ∀ j (hj : j < devices.length),
            j < get_capture_device_index devices id → (devices.get ⟨j, hj⟩).device_id ≠ id) := by
  constructor
  · intro hnone
    cases hidx : index_of_device devices id with
    | none => simp [get_capture_device_index, hidx]
    | some i =>
        obtain ⟨hi, hid, _⟩ := index_of_device_some devices id i hidx
        exact absurd hid (hnone _ (devices.get_mem i hi))
  · intro ⟨d, hd, hid⟩
    cases hidx : index_of_device devices id with
    | none => exact absurd hid (index_of_device_none devices id hidx d hd)
    | some i =>
        obtain ⟨hi, hid', hmin⟩ := index_of_device_some devices id i hidx
        refine ⟨by simpa [get_capture_device_index, hidx] using hi, ?_, ?_⟩
        · simpa [get_capture_device_index, hidx] using hid'
        · intro j hj hlt
          exact hmin j hj (by simpa [get_capture_device_index, hidx] using hlt)

/-- Witness for C1 at a concrete device list: id 7 sits at position 1, and
an absent id 9 yields 0. -/
theorem C1_get_capture_device_index_spec_witness :
    get_capture_device_index
        [⟨3, "a", "", false⟩, ⟨7, "b", "", false⟩] 9 = 0 ∧
      get_capture_device_index
        [⟨3, "a", "", false⟩, ⟨7, "b", "", false⟩] 7 = 1 :=
  ⟨(C1_get_capture_device_index_spec
      [⟨3, "a", "", false⟩, ⟨7, "b", "", false⟩] 9).1 (by decide),
   by
    obtain ⟨hlt, hid, -⟩ :=
      (C1_get_capture_device_index_spec
        [⟨3, "a", "", false⟩, ⟨7, "b", "", false⟩] 7).2
        ⟨⟨7, "b", "", false⟩, by decide, rfl⟩
    revert hlt hid
    decide⟩

/-- The displayed text of the three directory input line-edits of the
settings panel. -/
structure DirTexts where
  screenshot_directory_input : String
  windtracker_speed_image_folder_input : String
  windtracker_direction_image_folder_input : String
  deriving DecidableEq, Repr

/-- `__SettingsWidget.__select_screenshot_directory`.  `dialogResult` is
the string returned by the native folder-choose dialog (empty string on
cancel).  The source assigns the dialog result to
`settings_dict["screenshot_directory"]` unconditionally and then sets the
line-edit text from the freshly written key. -/
def select_screenshot_directory (dialogResult : String) (s : Settings) (t : DirTexts) :
    Settings × DirTexts :=
  let s' := { s with screenshot_directory := dialogResult }
  (s', { t with screenshot_directory_input := s'.screenshot_directory })

/-- `__SettingsWidget.__select_windtracker_image_directory`.  `none`
models the `UnboundLocalError` raised (when the dialog's starting
directory is computed) for a `dir_type` other than `"Speed"` or
`"Direction"`; on an empty dialog result nothing is written. -/
def select_windtracker_image_directory (dir_type : String) (dialogResult : String)
    (s : Settings) (t : DirTexts) : Option (Settings × DirTexts) :=
  if dir_type = "Speed" then
    if dialogResult ≠ "" then
      some ({ s with windtracker_speed_image_directory := dialogResult },
            { t with windtracker_speed_image_folder_input := dialogResult ++ "/" })
    else some (s, t)
  else if dir_type = "Direction" then
    if dialogResult ≠ "" then
      some ({ s with windtracker_direction_image_directory := dialogResult },
            { t with windtracker_direction_image_folder_input := dialogResult ++ "/" })
    else some (s, t)
  else none

/-- A sample settings store holding a previously chosen screenshot
directory. -/
def sampleSettings : Settings :=
  { capture_method := .BITBLT
    capture_device_id := 0
    capture_device_name := ""
    fps_limit := 60
    screenshot_directory := "/old/path"
    split_image_directory := "/splits"
    windtracker_speed_image_directory := "/speed"
    windtracker_direction_image_directory := "/direction"
    windtracker_region_1 := ⟨0, 0, 0, 0⟩
    windtracker_region_2 := ⟨0, 0, 0, 0⟩ }

/-- Sample line-edit texts matching `sampleSettings`. -/
def sampleTexts : DirTexts :=
  { screenshot_directory_input := "/old/path"
    windtracker_speed_image_folder_input := "/speed/"
    windtracker_direction_image_folder_input := "/direction/" }

/-- C2 counterexample: cancelling the screenshot-directory picker (empty
dialog result) does NOT keep the prior value: the stored key and the
displayed text both become the empty string, losing "/old/path". -/
theorem C2_cancel_keeps_prior_counterexample :
    sampleSettings.screenshot_directory = "/old/path" ∧
      sampleTexts.screenshot_directory_input = "/old/path" ∧
      (select_screenshot_directory "" sampleSettings sampleTexts).1.screenshot_directory = "" ∧
      (select_screenshot_directory "" sampleSettings sampleTexts).2.screenshot_directory_input
        = "" := by
  refine ⟨rfl, rfl, ?_, ?_⟩ <;> rfl

/-- C2 amended: only the two windtracker directory pickers leave the
settings key and displayed text unchanged on a cancelled dialog; the
screenshot-directory picker writes the dialog result unconditionally, so a
cancel overwrites the stored key and the displayed text with the empty
string. -/
theorem C2_cancel_amended (s : Settings) (t : DirTexts) :
    select_windtracker_image_directory "Speed" "" s t = some (s, t) ∧
      select_windtracker_image_directory "Direction" "" s t = some (s, t) ∧
      (select_screenshot_directory "" s t).1 = { s with screenshot_directory := "" } ∧
      (select_screenshot_directory "" s t).2 = { t with screenshot_directory_input := "" } := by
  refine ⟨?_, ?_, rfl, rfl⟩ <;> simp [select_windtracker_image_directory]

/-- Current values of the eight region spinboxes of the settings panel. -/
structure RegionControls where
  windtracker_x_spinbox_1 : Int
  windtracker_y_spinbox_1 : Int
  windtracker_width_spinbox_1 : Int
  windtracker_height_spinbox_1 : Int
  windtracker_x_spinbox_2 : Int
  windtracker_y_spinbox_2 : Int
  windtracker_width_spinbox_2 : Int
  windtracker_height_spinbox_2 : Int
  deriving DecidableEq, Repr

/-- Which sub-field's spinbox fired `valueChanged`. -/
inductive RegionField where
  | x
  | y
  | width
  | height
  deriving DecidableEq, Repr

/-- Which of the two region groups the spinbox belongs to. -/
inductive RegionId where
  | r1
  | r2
  deriving DecidableEq, Repr

/-- The four-field record built by every region-1 `valueChanged` lambda in
`__setup_bindings`: all four fields are re-read from the current spinbox
values. -/
def region_1_record (c : RegionControls) : Region :=
  { x := c.windtracker_x_spinbox_1
    y := c.windtracker_y_spinbox_1
    width := c.windtracker_width_spinbox_1
    height := c.windtracker_height_spinbox_1 }

/-- The four-field record built by every region-2 `valueChanged` lambda. -/
def region_2_record (c : RegionControls) : Region :=
  { x := c.windtracker_x_spinbox_2
    y := c.windtracker_y_spinbox_2
    width := c.windtracker_width_spinbox_2
    height := c.windtracker_height_spinbox_2 }

/-- The `valueChanged` handler bound to the spinbox `(r, f)` in
`__setup_bindings`: each of the eight lambdas calls
`__set_value("windtracker_region_<n>", {x:…, y:…, width:…, height:…})`
with all four values read from the controls at write time.  The eight
source lambdas are written out separately but have identical bodies per
region, which the match below reproduces arm by arm. -/
def region_subfield_changed (r : RegionId) (f : RegionField)
    (c : RegionControls) (s : Settings) : Settings :=
  match r, f with
  | .r1, .x => { s with windtracker_region_1 := region_1_record c }
  | .r1, .y => { s with windtracker_region_1 := region_1_record c }
  | .r1, .width => { s with windtracker_region_1 := region_1_record c }
  | .r1, .height => { s with windtracker_region_1 := region_1_record c }
  | .r2, .x => { s with windtracker_region_2 := region_2_record c }
  | .r2, .y => { s with windtracker_region_2 := region_2_record c }
  | .r2, .width => { s with windtracker_region_2 := region_2_record c }
  | .r2, .height => { s with windtracker_region_2 := region_2_record c }

/-- C3: whichever single sub-field spinbox of region 1 or region 2 fires,
the value written under that region's key is the full four-field record
read from the four current controls of that region (the three unchanged
fields are re-read, not carried over), and nothing else in the store
changes. -/
theorem C3_region_write_is_full_current_record (r : RegionId) (f : RegionField)
    (c : RegionControls) (s : Settings) :
    region_subfield_changed r f c s =
      match r with
      | .r1 => { s with windtracker_region_1 := region_1_record c }
      | .r2 => { s with windtracker_region_2 := region_2_record c } := by
  cases r <;> cases f <;> rfl

/-- The observable state of the `capture_device_combobox`. -/
structure ComboState where
  items : List String
  placeholder : String
  enabled : Bool
  currentIndex : Int
  deriving DecidableEq, Repr

/-- The label built for one enumerated device in
`__set_all_capture_devices`: name, backend tag when the backend string is
non-empty (Python truthiness), and an occupied marker. -/
def device_label (d : CameraInfo) : String :=
  "* " ++ d.name
    ++ (if d.backend ≠ "" then " [" ++ d.backend ++ "]" else "")
    ++ (if d.occupied then " (occupied)" else "")

/-- The removal loop `for i in range(count): removeItem(i)` of
`__set_all_capture_devices`.  `range` captures the item count once before
the first removal; Qt's `removeItem` ignores an out-of-range index, and
every in-range removal shifts the later items down by one. -/
def remove_items_loop (items : List String) : List String :=
  (List.range items.length).foldl (fun acc i => acc.eraseIdx i) items

/-- `__SettingsWidget.__enable_capture_device_if_its_selected_method`
called with no explicit method (as from `__set_all_capture_devices`): the
selected method is read from the settings store. -/
def enable_capture_device_if_its_selected_method (devices : List CameraInfo)
    (s : Settings) (combo : ComboState) : ComboState :=
  let is_video_capture_device := s.capture_method = CaptureMethodEnum.VIDEO_CAPTURE_DEVICE
  if is_video_capture_device then
    { combo with
        enabled := true
        currentIndex := Int.ofNat (get_capture_device_index devices s.capture_device_id) }
  else
    { combo with
        enabled := false
        placeholder := "Select \"Video Capture Device\" above"
        currentIndex := -1 }

/-- The completion of `__set_all_capture_devices`, applied once the
asynchronous enumeration has produced `devices`.  The function itself
never writes the settings store, which is returned untouched. -/
def set_all_capture_devices (devices : List CameraInfo) (s : Settings)
    (combo : ComboState) : ComboState × Settings :=
  if devices.length > 0 then
    let combo1 :=
      { combo with items := remove_items_loop combo.items ++ devices.map device_label }
    (enable_capture_device_if_its_selected_method devices s combo1, s)
  else
    ({ combo with placeholder := "No device found." }, s)

/-- C4 counterexample: with two items already in the combobox, the
removal loop deletes only the first one (removing index 0 shifts the
second item to index 0, and `removeItem(1)` then misses it), so after an
enumeration finding one device the item list is NOT exactly the
enumerated device labels: the stale "old B" survives in front. -/
theorem C4_replace_items_counterexample :
    (set_all_capture_devices [⟨0, "cam", "", false⟩] sampleSettings
        ⟨["old A", "old B"], "", true, 0⟩).1.items = ["old B", "* cam"] ∧
      (["old B", "* cam"] : List String) ≠ [device_label ⟨0, "cam", "", false⟩] := by
  exact ⟨rfl, by decide⟩

theorem enable_preserves_items (devices : List CameraInfo) (s : Settings)
    (combo : ComboState) :
    (enable_capture_device_if_its_selected_method devices s combo).items = combo.items := by
  unfold enable_capture_device_if_its_selected_method
  by_cases h : s.capture_method = CaptureMethodEnum.VIDEO_CAPTURE_DEVICE <;> simp [h]

/-- C4 amended: on completion with one or more devices the item list
becomes the survivors of the flawed removal loop (which misses every
second item of the shrinking list) followed by one label per enumerated
device; in particular, when the combobox was empty beforehand — the only
state in which the code invokes it, at panel open — the item list equals
exactly the enumerated device labels.  On completion with zero devices
only the placeholder is set and no selection state is written to the
settings store (which this function never touches). -/
theorem C4_set_all_capture_devices_amended (devices : List CameraInfo) (s : Settings)
    (combo : ComboState) :
    (devices ≠ [] →
      (set_all_capture_devices devices s combo).1.items
          = remove_items_loop combo.items ++ devices.map device_label ∧
        (combo.items = [] →
          (set_all_capture_devices devices s combo).1.items = devices.map device_label)) ∧
      (devices = [] →
        (set_all_capture_devices devices s combo).1
            = { combo with placeholder := "No device found." }) ∧
      (set_all_capture_devices devices s combo).2 = s := by
  refine ⟨?_, ?_, ?_⟩
  · intro hne
    have hlen : devices.length > 0 := List.length_pos.mpr hne
    constructor
    · simp only [set_all_capture_devices, hlen, if_pos]
      rw [enable_preserves_items]
    · intro hempty
      simp only [set_all_capture_devices, hlen, if_pos]
      rw [enable_preserves_items]
      simp [hempty, remove_items_loop]
  · intro he
    simp [set_all_capture_devices, he]
  · unfold set_all_capture_devices
    by_cases hlen : devices.length > 0 <;> simp [hlen]

/-- Witness for C4: a single enumerated device on a previously empty
combobox yields exactly its label; zero devices set the placeholder. -/
theorem C4_set_all_capture_devices_amended_witness :
    (set_all_capture_devices [⟨1, "cam", "dshow", true⟩] sampleSettings
        ⟨[], "", false, 0⟩).1.items = ["* cam [dshow] (occupied)"] ∧
      (set_all_capture_devices [] sampleSettings ⟨["x"], "", false, 0⟩).1.placeholder
        = "No device found." := by
  constructor
  · have h :=
      ((C4_set_all_capture_devices_amended [⟨1, "cam", "dshow", true⟩] sampleSettings
          ⟨[], "", false, 0⟩).1 (by decide)).2 rfl
    rw [h]
    rfl
  · have h :=
      (C4_set_all_capture_devices_amended [] sampleSettings ⟨["x"], "", false, 0⟩).2.1 rfl
    rw [h]

/-- `__SettingsWidget.__capture_device_changed`: reacts to a change of the
combobox's current index.  Returns the updated settings and whether
`change_capture_method` was invoked to re-initialize the video capture
device; `none` models the `IndexError` when a non-sentinel index falls
outside the cached device list. -/
def capture_device_changed (device_index : Int) (devices : List CameraInfo)
    (s : Settings) : Option (Settings × Bool) :=
  if device_index = -1 then some (s, false)
  else
    match devices.get? device_index.toNat with
    | none => none
    | some d =>
        let s' := { s with capture_device_name := d.name, capture_device_id := d.device_id }
        some (s', decide (s'.capture_method = CaptureMethodEnum.VIDEO_CAPTURE_DEVICE))

/-- C6: with current index -1 the handler is a no-op on the settings
store and triggers no re-initialization; with a valid index both
`capture_device_name` and `capture_device_id` are written from the cached
device-list entry at that index, and the capture subsystem is asked to
re-initialize exactly when the stored capture method is the
video-capture-device method. -/
theorem C6_capture_device_changed_spec (device_index : Int) (devices : List CameraInfo)
    (s : Settings) :
    (device_index = -1 → capture_device_changed device_index devices s = some (s, false)) ∧
      ∀ _hge : 0 ≤ device_index, ∀ hlt : device_index.toNat < devices.length,
        capture_device_changed device_index devices s =
          some ({ s with
                    capture_device_name := (devices.get ⟨device_index.toNat, hlt⟩).name
                    capture_device_id := (devices.get ⟨device_index.toNat, hlt⟩).device_id },
                decide (s.capture_method = CaptureMethodEnum.VIDEO_CAPTURE_DEVICE)) := by
  constructor
  · intro h
    simp [capture_device_changed, h]
  · intro hge hlt
    have hne : device_index ≠ -1 := by omega
    simp only [capture_device_changed, hne, if_false]
    rw [List.get?_eq_get hlt]

/-- Witness for C6: index -1 leaves the sample store untouched, and index
0 on a one-device list writes that device's name and id without
re-initializing (the sample store's method is not the device-based one). -/
theorem C6_capture_device_changed_spec_witness :
    capture_device_changed (-1) [⟨5, "cam", "", false⟩] sampleSettings
        = some (sampleSettings, false) ∧
      capture_device_changed 0 [⟨5, "cam", "", false⟩] sampleSettings
        = some ({ sampleSettings with
                    capture_device_name := "cam"
                    capture_device_id := 5 }, false) := by
  constructor
  · exact (C6_capture_device_changed_spec (-1) [⟨5, "cam", "", false⟩] sampleSettings).1 rfl
  · have h :=
      (C6_capture_device_changed_spec 0 [⟨5, "cam", "", false⟩] sampleSettings).2
        (by decide) (by decide)
    rw [h]
    rfl

/-- Python's `str.split(sep)` for a single-character separator (the code
splits on `"v"` and, within version parsing, on `"."`): split on every
occurrence, keeping empty segments, so the result is always non-empty. -/
def split_on_char (sep : Char) : List Char → List (List Char)
  | [] => [[]]
  | c :: cs =>
      match split_on_char sep cs with
      | [] => [[]]
      | seg :: rest => if c = sep then [] :: seg :: rest else (c :: seg) :: rest

/-- `s.split(sep)` as a list of strings. -/
def py_split (s : String) (sep : Char) : List String :=
  (split_on_char sep s.data).map (fun cs => String.mk cs)

/-- Outcome of the HTTP fetch plus JSON field access in
`__CheckForUpdatesThread.run`: a network/HTTP/JSON-decoding error
(`requests.RequestException`, whose subclasses include the JSON decode
error), a JSON document without a `"name"` key (`KeyError`), or the
release-name string. -/
inductive FetchResult where
  | requestError
  | jsonMissingName
  | ok (name : String)
  deriving DecidableEq, Repr

/-- A Qt signal emitted by the update-check thread toward the UI. -/
inductive Emitted where
  | update_checker_widget_signal (latest_version : String) (check_on_open : Bool)
  | show_error_signal
  deriving DecidableEq, Repr

/-- `__CheckForUpdatesThread.run`.  `str(...).split("v")[1]` takes the
segment of the release name between the first `"v"` and the next one (or
the end of the string); when the name holds no `"v"` the subscript raises
an `IndexError`, which the `except (RequestException, KeyError)` clause
does not catch — modelled as `none`: the thread dies emitting nothing. -/
def check_for_updates_run (check_on_open : Bool) (fetch : FetchResult) :
    Option (List Emitted) :=
  match fetch with
  | .ok name =>
      match (py_split name 'v').get? 1 with
      | some latest_version =>
          some [.update_checker_widget_signal latest_version check_on_open]
      | none => none
  | _ => if check_on_open then some [] else some [.show_error_signal]

/-- C5 counterexample: a successfully fetched release name without a "v"
("1.2.3") is a parse failure, yet the user-initiated check emits no
signal at all — the uncaught `IndexError` kills the thread instead of
surfacing the generic error the claim requires. -/
theorem C5_run_counterexample :
    check_for_updates_run false (FetchResult.ok "1.2.3") = none ∧
      check_for_updates_run false (FetchResult.ok "1.2.3")
        ≠ some [Emitted.show_error_signal] := by
  constructor
  · rfl
  · decide

/-- C5 amended: on a successful fetch whose name contains a "v" the
thread signals the UI with the segment of the name after the first "v"
(up to the next "v"); on the failures the handler recognizes — network,
HTTP or JSON errors and a missing name key — a startup check emits
nothing and a user-initiated check emits the generic error; a fetched
name without any "v", however, raises an uncaught exception and the
thread emits nothing regardless of the flag. -/
theorem C5_run_amended (b : Bool) (name : String) :
    check_for_updates_run b .requestError
        = (if b then some [] else some [.show_error_signal]) ∧
      check_for_updates_run b .jsonMissingName
        = (if b then some [] else some [.show_error_signal]) ∧
      (∀ v, (py_split name 'v').get? 1 = some v →
        check_for_updates_run b (.ok name)
          = some [.update_checker_widget_signal v b]) ∧
      ((py_split name 'v').get? 1 = none →
        check_for_updates_run b (.ok name) = none) := by
  refine ⟨rfl, rfl, ?_, ?_⟩
  · intro v hv
    rw [List.get?_eq_getElem?] at hv
    simp [check_for_updates_run, hv]
  · intro hn
    rw [List.get?_eq_getElem?] at hn
    simp [check_for_updates_run, hn]

/-- Witness for C5 amended, at concrete fetch outcomes: a user-initiated
network failure emits the generic error, a startup one emits nothing, and
a fetched name "v1.2.3" signals the update widget with "1.2.3". -/
theorem C5_run_amended_witness :
    check_for_updates_run false .requestError = some [.show_error_signal] ∧
      check_for_updates_run true .requestError = some [] ∧
      check_for_updates_run true (.ok "v1.2.3")
        = some [.update_checker_widget_signal "1.2.3" true] := by
  refine ⟨?_, ?_, ?_⟩
  · simpa using (C5_run_amended false "x").1
  · simpa using (C5_run_amended true "x").1
  · exact (C5_run_amended true "v1.2.3").2.2.1 "1.2.3" (by decide)

/-- Digits of one dot-separated segment read as a decimal number. -/
def nat_of_digits (cs : List Char) : Nat :=
  cs.foldl (fun a c => a * 10 + (c.toNat - 48)) 0

/-- Modelled from the spec: the external `packaging.version.parse` used
by `__UpdateCheckerWidget.__init__` is a third-party library outside this
repository; the spec states it applies "standard version-ordering
semantics (numeric-segment comparison, not lexical string comparison)".
This models its release handling for dotted numeric versions: each
segment is read as a decimal number. -/
def parse_release (s : String) : List Nat :=
  (split_on_char '.' s.data).map nat_of_digits

/-- Plain lexicographic (code-point) character-list order — the "lexical
string comparison" the spec contrasts the version order with. -/
def lex_string_lt : List Char → List Char → Bool
  | [], [] => false
  | [], _ :: _ => true
  | _ :: _, [] => false
  | a :: as, b :: bs =>
      if a.toNat < b.toNat then true
      else if b.toNat < a.toNat then false
      else lex_string_lt as bs

/-- Position-wise comparison of two equal-length segment lists. -/
def lex_lt : List Nat → List Nat → Bool
  | [], _ => false
  | _ :: _, [] => false
  | a :: as, b :: bs => if a < b then true else if b < a then false else lex_lt as bs

/-- Numeric-segment strict order: shorter release tuples are padded with
zeros (PEP 440), then segments are compared position by position. -/
def version_gt (latest current : String) : Bool :=
  let a := parse_release latest
  let b := parse_release current
  let n := max a.length b.length
  lex_lt (b ++ List.replicate (n - b.length) 0) (a ++ List.replicate (n - a.length) 0)

/-- Whether `__UpdateCheckerWidget.__init__` reaches a `show()` call:
it does in the branch where the parsed latest version is strictly greater
than the running version, and also — reconfigured as an up-to-date
notice — in the `elif not check_on_open` branch. -/
def update_checker_widget_shows (latest current : String) (check_on_open : Bool) : Bool :=
  if version_gt latest current then true
  else if !check_on_open then true
  else false

/-- C7 counterexample: with the latest version equal to the running one
("1.0.0" both) and a user-initiated check, the widget is shown (as an
up-to-date notice) although the latest version is not strictly greater —
"shown exactly when strictly greater" fails in that direction. -/
theorem C7_shows_iff_greater_counterexample :
    update_checker_widget_shows "1.0.0" "1.0.0" false = true ∧
      version_gt "1.0.0" "1.0.0" = false := by
  decide

/-- C7 amended: the comparison is numeric by segments — "1.10.0" is
greater than "1.9.0" although it is lexically smaller — and on a startup
check (`check_on_open` true) the dialog is shown exactly when the parsed
latest version is strictly greater than the running version; a
user-initiated check additionally shows the widget, as an up-to-date
notice, when it is not. -/
theorem C7_version_comparison_amended :
    version_gt "1.10.0" "1.9.0" = true ∧
      lex_string_lt "1.10.0".data "1.9.0".data = true ∧
      (∀ latest current : String,
        update_checker_widget_shows latest current true = version_gt latest current) ∧
      (∀ latest current : String, ∀ b : Bool,
        update_checker_widget_shows latest current b
          = (version_gt latest current || !b)) := by
  refine ⟨by decide, by decide, ?_, ?_⟩
  · intro latest current
    cases h : version_gt latest current <;> simp [update_checker_widget_shows, h]
  · intro latest current b
    cases h : version_gt latest current <;> cases b <;>
      simp [update_checker_widget_shows, h]

/-- A Qt widget as observable through `isHidden()`. -/
structure Widget where
  hidden : Bool
  deriving DecidableEq, Repr

/-- The application-level state touched by the two background operations:
the settings-widget reference stored on the `AutoSplit` object and how
many instances of each background unit are currently running. -/
structure AppState where
  settingsWidget : Option Widget
  checkForUpdatesThreadsRunning : Nat
  enumerationsRunning : Nat
  deriving DecidableEq, Repr

/-- `check_for_updates`: unconditionally constructs a fresh
`__CheckForUpdatesThread`, stores it over the previous reference and
starts it.  A previously started thread keeps running; nothing stops,
joins or checks it. -/
def check_for_updates_op (s : AppState) : AppState :=
  { s with checkForUpdatesThreadsRunning := s.checkForUpdatesThreadsRunning + 1 }

/-- `open_settings` as it affects background work: a fresh
`__SettingsWidget` — whose constructor fires one background device
enumeration — is constructed only when no widget is stored or the stored
one is hidden. -/
def open_settings_op (s : AppState) : AppState :=
  match s.settingsWidget with
  | some w =>
      if w.hidden then
        { s with
            settingsWidget := some ⟨false⟩
            enumerationsRunning := s.enumerationsRunning + 1 }
      else s
  | none =>
      { s with
          settingsWidget := some ⟨false⟩
          enumerationsRunning := s.enumerationsRunning + 1 }

/-- C8 counterexample: calling `check_for_updates` twice in a row, with
the first thread still running, leaves two update-check threads running
concurrently — the reassignment guard the claim asserts does not exist. -/
theorem C8_no_self_concurrency_counterexample :
    (check_for_updates_op (check_for_updates_op
        ⟨none, 0, 0⟩)).checkForUpdatesThreadsRunning = 2 := by
  rfl

/-- C8 amended: a second panel-open while the settings panel is visible
is a no-op and spawns no second enumeration against the same control; but
`check_for_updates` is unguarded — every call starts one more update-check
thread, so a second call while one is still running yields two running
concurrently. -/
theorem C8_background_concurrency_amended (s : AppState) :
    (∀ w, s.settingsWidget = some w → w.hidden = false → open_settings_op s = s) ∧
      (check_for_updates_op s).checkForUpdatesThreadsRunning
        = s.checkForUpdatesThreadsRunning + 1 := by
  constructor
  · intro w hw hh
    simp [open_settings_op, hw, hh]
  · rfl

/-- Witness for C8 amended: with a visible settings panel and one
update-check already running, a panel-open changes nothing while a
`check_for_updates` call brings the running update-checks to two. -/
theorem C8_background_concurrency_amended_witness :
    open_settings_op ⟨some ⟨false⟩, 1, 1⟩ = ⟨some ⟨false⟩, 1, 1⟩ ∧
      (check_for_updates_op ⟨some ⟨false⟩, 1, 1⟩).checkForUpdatesThreadsRunning = 2 := by
  exact ⟨(C8_background_concurrency_amended ⟨some ⟨false⟩, 1, 1⟩).1 ⟨false⟩ rfl rfl,
    (C8_background_concurrency_amended ⟨some ⟨false⟩, 1, 1⟩).2⟩

/-- `__SettingsWidget.__fps_limit_changed`: the delivered signal payload
is immediately overwritten by re-reading the spinbox; `fps_limit` is then
written, and the live-image timer interval is set (twice, to the same
value) to `int(1000 / value)`.  The division is unguarded: a spinbox
value of 0 raises `ZeroDivisionError` after the store write, so no
interval is produced (`none`).  For the spinbox's integer range, Python's
`int(1000 / value)` is truncation toward zero, `Int.tdiv`. -/
def fps_limit_changed (_delivered : Int) (spinbox_value : Int) (s : Settings) :
    Settings × Option Int :=
  let value := spinbox_value
  let s' := { s with fps_limit := value }
  if value = 0 then (s', none) else (s', some (Int.tdiv 1000 value))

/-- C9: the handler's result is independent of the value the signal
delivered; the re-read spinbox value is written under `fps_limit`; and
the timer interval is set to the truncation of `1000 / value` exactly
when the spinbox value is nonzero — at 0 the unguarded division fails and
no interval is written. -/
theorem C9_fps_limit_changed_spec (d₁ d₂ spin : Int) (s : Settings) :
    fps_limit_changed d₁ spin s = fps_limit_changed d₂ spin s ∧
      (fps_limit_changed d₁ spin s).1 = { s with fps_limit := spin } ∧
      (spin ≠ 0 → (fps_limit_changed d₁ spin s).2 = some (Int.tdiv 1000 spin)) ∧
      (spin = 0 → (fps_limit_changed d₁ spin s).2 = none) := by
  refine ⟨rfl, ?_, ?_, ?_⟩
  · unfold fps_limit_changed
    by_cases h : spin = 0 <;> simp [h]
  · intro h
    simp [fps_limit_changed, h]
  · intro h
    simp [fps_limit_changed, h]

/-- Witness for C9: a spinbox value of 60 yields the 16 ms interval, and
a spinbox value of 0 yields none. -/
theorem C9_fps_limit_changed_spec_witness :
    (fps_limit_changed 59 60 sampleSettings).2 = some 16 ∧
      (fps_limit_changed 59 0 sampleSettings).2 = none := by
  constructor
  · have h := (C9_fps_limit_changed_spec 59 0 60 sampleSettings).2.2.1 (by decide)
    rw [h]
    decide
  · exact (C9_fps_limit_changed_spec 59 0 0 sampleSettings).2.2.2 rfl

/-- The per-window-type state relevant to `open_about`,
`open_update_checker` and `open_settings`: the reference stored on the
`AutoSplit` object, plus any earlier instances the reference no longer
points to. -/
structure WindowSlot where
  stored : Option Widget
  orphans : List Widget
  deriving DecidableEq, Repr

/-- The common guard of the three open functions: construct a new widget
only when no instance is stored or the stored one is hidden; a replaced
instance survives as an orphan.  `newHidden` is the constructed widget's
hidden flag. -/
def open_aux_window (newHidden : Bool) (slot : WindowSlot) : WindowSlot :=
  match slot.stored with
  | none => { slot with stored := some ⟨newHidden⟩ }
  | some w =>
      if w.hidden then { stored := some ⟨newHidden⟩, orphans := w :: slot.orphans }
      else slot

/-- `open_about`: the `__AboutWidget` constructor ends in `show()`, so
the new instance is visible. -/
def open_about (slot : WindowSlot) : WindowSlot :=
  open_aux_window false slot

/-- `open_update_checker`: the `__UpdateCheckerWidget` constructor calls
`show()` exactly when `update_checker_widget_shows` holds; otherwise the
new instance stays hidden. -/
def open_update_checker (latest current : String) (check_on_open : Bool)
    (slot : WindowSlot) : WindowSlot :=
  open_aux_window (!update_checker_widget_shows latest current check_on_open) slot

/-- `open_settings`: the `__SettingsWidget` constructor ends in
`show()`. -/
def open_settings (slot : WindowSlot) : WindowSlot :=
  open_aux_window false slot

/-- Number of visible (non-hidden) widget instances of one window type. -/
def visible_count (slot : WindowSlot) : Nat :=
  (match slot.stored with
    | some w => if w.hidden then 0 else 1
    | none => 0)
    + (slot.orphans.filter (fun w => !w.hidden)).length

/-- C10: each of the three open functions follows the common guard — a
new instance is constructed exactly when none is stored or the stored one
is hidden, a visible stored instance makes the call a no-op — and, since
replaced instances were hidden and stay hidden, at most one visible
instance of each window type exists at any time. -/
theorem C10_single_visible_window (newHidden : Bool) (slot : WindowSlot) :
    (open_about slot = open_aux_window false slot ∧
        open_settings slot = open_aux_window false slot ∧
        ∀ latest current b, open_update_checker latest current b slot
          = open_aux_window (!update_checker_widget_shows latest current b) slot) ∧
      (slot.stored = none →
        open_aux_window newHidden slot = { slot with stored := some ⟨newHidden⟩ }) ∧
      (∀ w, slot.stored = some w → w.hidden = true →
        open_aux_window newHidden slot = ⟨some ⟨newHidden⟩, w :: slot.orphans⟩) ∧
      (∀ w, slot.stored = some w → w.hidden = false →
        open_aux_window newHidden slot = slot) ∧
      ((∀ w ∈ slot.orphans, w.hidden = true) →
        (∀ w ∈ (open_aux_window newHidden slot).orphans, w.hidden = true) ∧
          visible_count (open_aux_window newHidden slot) ≤ 1) := by
  refine ⟨⟨rfl, rfl, fun _ _ _ => rfl⟩, ?_, ?_, ?_, ?_⟩
  · intro h
    simp [open_aux_window, h]
  · intro w hw hh
    simp [open_aux_window, hw, hh]
  · intro w hw hh
    simp [open_aux_window, hw, hh]
  · intro horph
    have hfilter : ∀ l : List Widget, (∀ w ∈ l, w.hidden = true) →
        (l.filter (fun w => !w.hidden)).length = 0 := by
      intro l hl
      rw [List.length_eq_zero]
      rw [List.filter_eq_nil_iff]
      intro a ha
      simp [hl a ha]
    cases hs : slot.stored with
    | none =>
        constructor
        · simpa [open_aux_window, hs] using horph
        · simp only [open_aux_window, hs, visible_count]
          rw [hfilter _ horph]
          cases newHidden <;> simp
    | some w =>
        by_cases hh : w.hidden = true
        · constructor
          · intro u hu
            simp only [open_aux_window, hs, hh, if_true] at hu
            rcases List.mem_cons.mp hu with hu | hu
            · simpa [hu] using hh
            · exact horph u hu
          · simp only [open_aux_window, hs, hh, if_true, visible_count]
            have : ∀ u ∈ w :: slot.orphans, u.hidden = true := by
              intro u hu
              rcases List.mem_cons.mp hu with hu | hu
              · simpa [hu] using hh
              · exact horph u hu
            rw [hfilter _ this]
            cases newHidden <;> simp
        · have hh' : w.hidden = false := by
            cases h : w.hidden
            · rfl
            · exact absurd h hh
          have heq : open_aux_window newHidden slot = slot := by
            simp [open_aux_window, hs, hh']
          constructor
          · intro u hu
            rw [heq] at hu
            exact horph u hu
          · rw [heq]
            simp only [visible_count, hs, hh']
            rw [hfilter _ horph]
            simp

/-- Witness for C10 at a concrete slot: a hidden stored about-widget is
replaced by a fresh visible one, the old instance surviving hidden, and
exactly one instance is visible afterwards. -/
theorem C10_single_visible_window_witness :
    open_aux_window false ⟨some ⟨true⟩, []⟩ = ⟨some ⟨false⟩, [⟨true⟩]⟩ ∧
      visible_count (open_aux_window false ⟨some ⟨true⟩, []⟩) ≤ 1 := by
  constructor
  · exact (C10_single_visible_window false ⟨some ⟨true⟩, []⟩).2.2.1 ⟨true⟩ rfl rfl
  · exact ((C10_single_visible_window false ⟨some ⟨true⟩, []⟩).2.2.2.2 (by simp)).2

end MenuBar
